import Mathlib

/-!
Verification development for the table-comparison engine of this repository
(`data_val.py`).  The Python functions `safe_sort` and `compare_dataframes`
are embedded shallowly: a pandas `DataFrame` becomes a list of rows over a
tagged cell-value type, Python `str()` becomes `pdStr`, and the raising
behaviour of column access and `.iloc[0]` is made explicit with `Except`.
Two equalities on cell values are distinguished, as in the program:
`pyEq` is Python `==` as `set` operations observe it (`None`, a singleton,
matches itself by identity; distinct NaN objects match nothing; `True`
equals `1`), while `maskEq` is the elementwise equality of a pandas mask
`df[col] == v` (a comparison involving `None` or NaN is always False).
The report dictionary the code builds is embedded as a string-keyed tree
(`RVal`) with exactly the keys the code uses.
-/

/-- A pandas cell value: the two null flavours `noneV` (Python `None`, as
found in object columns) and `nanV` (float NaN), an integer, a string, or a
boolean. -/
inductive PdValue where
  | noneV : PdValue
  | nanV : PdValue
  | intV : Int → PdValue
  | strV : String → PdValue
  | boolV : Bool → PdValue
deriving DecidableEq, Repr

/-- Whether a cell value is null (`None` or NaN); both are removed by
`dropna` and ignored by `nunique`. -/
def PdValue.isNA : PdValue → Bool
  | .noneV => true
  | .nanV => true
  | _ => false

/-- Python `str()` on a cell value (the canonical string of the spec):
`str(None)` renders "None" and `str(nan)` renders "nan". -/
def pdStr : PdValue → String
  | .noneV => "None"
  | .nanV => "nan"
  | .intV n => toString n
  | .strV s => s
  | .boolV b => if b then "True" else "False"

/-- The numeric view Python uses to compare ints and bools (`True == 1`,
`False == 0`); `None`, NaN and strings have none. -/
def asInt : PdValue → Option Int
  | .intV n => some n
  | .boolV b => some (if b then 1 else 0)
  | _ => none

/-- Elementwise equality of a pandas mask `df[col] == v`: strings compare
as strings, ints and bools compare numerically, and any comparison
involving `None` or NaN is False (pandas maps `== None` to False, and NaN
is unequal to everything). -/
def maskEq : PdValue → PdValue → Bool
  | .strV a, .strV b => a == b
  | x, y =>
    match asInt x, asInt y with
    | some a, some b => a == b
    | _, _ => false

/-- Python `==` as `set` membership observes it (hash plus identity or
`==`): like `maskEq`, except that `None` — one singleton object — matches
itself. -/
def pyEq : PdValue → PdValue → Bool
  | .noneV, .noneV => true
  | x, y => maskEq x y

theorem asInt_isNA (x : PdValue) (a : Int) (h : asInt x = some a) : x.isNA = false := by
  cases x <;> simp_all [asInt, PdValue.isNA]

theorem maskEq_true_cases (x y : PdValue) (h : maskEq x y = true) :
    (∃ s, x = .strV s ∧ y = .strV s) ∨ (∃ a, asInt x = some a ∧ asInt y = some a) := by
  cases x <;> cases y <;> simp_all [maskEq, asInt]

theorem maskEq_of_asInt (x y : PdValue) (a : Int) (h1 : asInt x = some a)
    (h2 : asInt y = some a) : maskEq x y = true := by
  cases x <;> cases y <;> simp_all [maskEq, asInt]

theorem maskEq_comm (x y : PdValue) : maskEq x y = maskEq y x := by
  cases x <;> cases y <;> simp [maskEq, asInt, eq_comm]

theorem maskEq_trans (x y z : PdValue) (h1 : maskEq x y = true)
    (h2 : maskEq y z = true) : maskEq x z = true := by
  rcases maskEq_true_cases x y h1 with ⟨s, rfl, rfl⟩ | ⟨a, hx, hy⟩
  · exact h2
  · rcases maskEq_true_cases y z h2 with ⟨t, rfl, rfl⟩ | ⟨b, hy2, hz⟩
    · simp [asInt] at hy
    · obtain rfl : a = b := by rw [hy] at hy2; simpa using hy2
      exact maskEq_of_asInt x z a hx hz

theorem maskEq_refl (x : PdValue) (h : x.isNA = false) : maskEq x x = true := by
  cases x <;> simp_all [maskEq, asInt, PdValue.isNA]

theorem maskEq_noneV_right (x : PdValue) : maskEq x .noneV = false := by
  cases x <;> simp [maskEq, asInt]

theorem maskEq_isNA_left (x y : PdValue) (h : maskEq x y = true) : x.isNA = false := by
  rcases maskEq_true_cases x y h with ⟨s, rfl, -⟩ | ⟨a, hx, -⟩
  · rfl
  · exact asInt_isNA x a hx

theorem pyEq_eq_maskEq (x y : PdValue) (hx : x ≠ .noneV) : pyEq x y = maskEq x y := by
  cases x <;> cases y <;> simp_all [pyEq]

theorem pyEq_none_iff (y : PdValue) : pyEq .noneV y = true ↔ y = .noneV := by
  cases y <;> simp [pyEq, maskEq, asInt]

theorem pyEq_none_right_iff (x : PdValue) : pyEq x .noneV = true ↔ x = .noneV := by
  cases x <;> simp [pyEq, maskEq, asInt]

theorem maskEq_imp_pyEq (x y : PdValue) (h : maskEq x y = true) : pyEq x y = true := by
  cases x <;> cases y <;> simp_all [pyEq]

theorem pyEq_true_cases (x y : PdValue) (h : pyEq x y = true) :
    (x = .noneV ∧ y = .noneV) ∨ maskEq x y = true := by
  cases x <;> cases y <;> simp_all [pyEq]

theorem pyEq_symm (x y : PdValue) : pyEq x y = pyEq y x := by
  cases x <;> cases y <;> simp [pyEq, maskEq_comm]

theorem pyEq_trans (x y z : PdValue) (h1 : pyEq x y = true) (h2 : pyEq y z = true) :
    pyEq x z = true := by
  rcases pyEq_true_cases x y h1 with ⟨rfl, rfl⟩ | hm1
  · exact h2
  · rcases pyEq_true_cases y z h2 with ⟨rfl, rfl⟩ | hm2
    · exact h1
    · exact maskEq_imp_pyEq x z (maskEq_trans x y z hm1 hm2)

theorem pyEq_refl (x : PdValue) (h : x ≠ .nanV) : pyEq x x = true := by
  cases x <;> simp_all [pyEq, maskEq, asInt]

theorem pyEq_nan_left (y : PdValue) : pyEq .nanV y = false := by
  cases y <;> simp [pyEq, maskEq, asInt]

theorem pyEq_nan_right (x : PdValue) : pyEq x .nanV = false := by
  cases x <;> simp [pyEq, maskEq, asInt]

/-- A row: the mapping from column name to cell value. -/
abbrev Row := List (String × PdValue)

/-- Cell access `row[col]`; in a rectangular frame the column is present,
the `NA` default is never exercised by the comparison code. -/
def getCell (r : Row) (c : String) : PdValue := (List.lookup c r).getD .nanV

/-- A pandas DataFrame: ordered column names and a sequence of rows. -/
structure DataFrame where
  cols : List String
  rows : List Row
deriving Repr

/-- Keep the first occurrence of each `eq`-class (Python `set` / `unique`
semantics; an element no earlier element is `eq`-equal to is kept). -/
def dedupByAux {α : Type} (eq : α → α → Bool) : List α → List α → List α
  | _, [] => []
  | seen, a :: l =>
    if seen.any (fun b => eq b a) then dedupByAux eq seen l
    else a :: dedupByAux eq (a :: seen) l

def dedupBy {α : Type} (eq : α → α → Bool) (l : List α) : List α :=
  dedupByAux eq [] l

def dedupPd (l : List PdValue) : List PdValue := dedupBy pyEq l

def dedupStr (l : List String) : List String := dedupBy (fun a b => a == b) l

/-- Set intersection drawn from the left list (`s1.intersection(s2)`). -/
def interBy {α : Type} (eq : α → α → Bool) (l1 l2 : List α) : List α :=
  l1.filter (fun x => l2.any (fun y => eq x y))

/-- Set difference (Python `s1 - s2`). -/
def diffBy {α : Type} (eq : α → α → Bool) (l1 l2 : List α) : List α :=
  l1.filter (fun x => !(l2.any (fun y => eq x y)))

/-- Set equality (Python `s1 == s2` on sets): mutual containment. -/
def setEqBy {α : Type} (eq : α → α → Bool) (l1 l2 : List α) : Bool :=
  (l1.all (fun x => l2.any (fun y => eq x y))) && (l2.all (fun y => l1.any (fun x => eq x y)))

/-- The exceptions the comparison code can raise: `KeyError` from `df[col]`
(carrying only the column name, as in pandas) and `IndexError` from
`.iloc[0]` on an empty selection. -/
inductive PdError where
  | keyError : String → PdError
  | indexError : PdError
deriving DecidableEq, Repr

/-- The values of column `c` in row order (total version, used once the
column is known to exist). -/
def getColD (df : DataFrame) (c : String) : List PdValue :=
  df.rows.map (fun r => getCell r c)

/-- `df[c]`: raises `KeyError(c)` when the column is absent. -/
def getCol (df : DataFrame) (c : String) : Except PdError (List PdValue) :=
  if df.cols.contains c then .ok (getColD df c) else .error (.keyError c)

/-- `Series.nunique()`: number of distinct non-null values. -/
def nunique (l : List PdValue) : Nat :=
  (dedupPd (l.filter (fun v => !v.isNA))).length

/-- `Series.astype(str)`: every cell becomes its string rendering (note that
null cells become the strings "None"/"nan" and are no longer null). -/
def astype_str (l : List PdValue) : List PdValue :=
  l.map (fun v => .strV (pdStr v))

/-- `Series.dropna()`: remove null cells. -/
def dropna (l : List PdValue) : List PdValue :=
  l.filter (fun v => !v.isNA)

/-- `set(series.unique())`: distinct values, first-encounter order. -/
def uniqueVals (l : List PdValue) : List PdValue := dedupPd l

/-- `set(df[col].astype(str).dropna().unique())` from the source: the
distinct-value set of a column after string canonicalisation. -/
def valueSet (df : DataFrame) (c : String) : List PdValue :=
  uniqueVals (dropna (astype_str (getColD df c)))

/-- Ordering by the `str` key, as `sorted(values, key=str)` uses. -/
def strKeyLe (a b : PdValue) : Prop := pdStr a ≤ pdStr b

instance : DecidableRel strKeyLe := fun a b =>
  inferInstanceAs (Decidable (pdStr a ≤ pdStr b))

instance : IsTotal PdValue strKeyLe := ⟨fun a b => le_total (pdStr a) (pdStr b)⟩

instance : IsTrans PdValue strKeyLe := ⟨fun _ _ _ hab hbc => le_trans hab hbc⟩

/-- `safe_sort` from the source: `sorted(list(values), key=str)`, a stable
sort by the string key (modelled by insertion sort, which is stable); the
`except` fallback is unreachable here because `str` is total on cell
values. -/
def safe_sort (l : List PdValue) : List PdValue :=
  l.insertionSort strKeyLe

/-- The report dictionary, embedded as a string-keyed tree.  The `bool`
constructor is representable but never produced by the code; it exists so
that spec-level statements about boolean report fields can be expressed. -/
inductive RVal where
  | nat : Nat → RVal
  | bool : Bool → RVal
  | pd : PdValue → RVal
  | list : List RVal → RVal
  | dict : List (String × RVal) → RVal
deriving Repr

/-- One row of the `record_differences` output: the record id, the column,
and the two string-rendered values. -/
structure RecordDiff where
  recordId : PdValue
  column : String
  df1Value : String
  df2Value : String
deriving DecidableEq, Repr

def rvalOfRecordDiff (e : RecordDiff) : RVal :=
  .dict [("Record ID", .pd e.recordId), ("Column", .pd (.strV e.column)),
         ("DF1 Value", .pd (.strV e.df1Value)), ("DF2 Value", .pd (.strV e.df2Value))]

def rlistStr (l : List String) : RVal := .list (l.map (fun s => .pd (.strV s)))

def rlistPd (l : List PdValue) : RVal := .list (l.map (fun v => .pd v))

/-- Key lookup in a dictionary node. -/
def lookupD (v : RVal) (k : String) : Option RVal :=
  match v with
  | .dict d => List.lookup k d
  | _ => none

/-- Lookup along a path of dictionary keys. -/
def lookupPath (v : RVal) : List String → Option RVal
  | [] => some v
  | k :: ks =>
    match lookupD v k with
    | some w => lookupPath w ks
    | none => none

/-- Whether a boolean value occurs anywhere in a report tree. -/
def containsBool : RVal → Bool
  | .bool _ => true
  | .list [] => false
  | .list (v :: l) => containsBool v || containsBool (.list l)
  | .dict [] => false
  | .dict ((_, v) :: d) => containsBool v || containsBool (.dict d)
  | _ => false

/-- `list(columns_df1 - columns_df2)` from the source. -/
def columnsOnlyInDf1 (df1 df2 : DataFrame) : List String :=
  diffBy (fun a b => a == b) (dedupStr df1.cols) (dedupStr df2.cols)

/-- `columns_df1.intersection(columns_df2)` from the source. -/
def commonColumns (df1 df2 : DataFrame) : List String :=
  interBy (fun a b => a == b) (dedupStr df1.cols) (dedupStr df2.cols)

/-- One column's contribution to `value_differences`: compare the
string-cast distinct-value sets and record the four sorted lists when they
differ. -/
def valueDiffEntry (df1 df2 : DataFrame) (col : String) : Option (String × RVal) :=
  let v1 := valueSet df1 col
  let v2 := valueSet df2 col
  if setEqBy pyEq v1 v2 then none
  else some (col, RVal.dict
    [("df1_values", rlistPd (safe_sort v1)),
     ("df2_values", rlistPd (safe_sort v2)),
     ("only_in_df1", rlistPd (safe_sort (diffBy pyEq v1 v2))),
     ("only_in_df2", rlistPd (safe_sort (diffBy pyEq v2 v1)))])

/-- The `value_differences` component: the loop over the common columns
(the id column included). -/
def value_differences (df1 df2 : DataFrame) : List (String × RVal) :=
  (commonColumns df1 df2).filterMap (valueDiffEntry df1 df2)

/-- `set(df1[c]).intersection(set(df2[c]))` from the source, with Python
set-membership equality (`pyEq`); representatives are drawn from the first
table's set. -/
def common_ids (df1 df2 : DataFrame) (c : String) : List PdValue :=
  interBy pyEq (dedupPd (getColD df1 c)) (dedupPd (getColD df2 c))

/-- `df[df[c] == idv].iloc[0]`: the first row the pandas mask selects
(`maskEq`); raises `IndexError` when no row matches — which happens for a
`None` id, since `df[c] == None` is all-False. -/
def ilocFirst (df : DataFrame) (c : String) (idv : PdValue) : Except PdError Row :=
  match df.rows.find? (fun r => maskEq (getCell r c) idv) with
  | some r => .ok r
  | none => .error .indexError

/-- Total version of the representative-row selection (the first matching
row; defaulting is never exercised on the success path). -/
def reprRow (df : DataFrame) (c : String) (idv : PdValue) : Row :=
  (df.rows.find? (fun r => maskEq (getCell r c) idv)).getD []

/-- The per-id inner loop: for each common column, compare the `str`
renderings of the two representative rows and record an entry when they
differ. -/
def rowDiffs (common : List String) (idv : PdValue) (r1 r2 : Row) : List RecordDiff :=
  common.filterMap (fun col =>
    let v1 := pdStr (getCell r1 col)
    let v2 := pdStr (getCell r2 col)
    if v1 = v2 then none else some ⟨idv, col, v1, v2⟩)

/-- The record-comparison loop of the source, with the raising `.iloc[0]`
accesses explicit. -/
def record_differences (df1 df2 : DataFrame) (c : String) :
    Except PdError (List RecordDiff) := do
  let ls ← (common_ids df1 df2 c).mapM (fun idv => do
    let r1 ← ilocFirst df1 c idv
    let r2 ← ilocFirst df2 c idv
    pure (rowDiffs (commonColumns df1 df2) idv r1 r2))
  pure ls.flatten

/-- The `report['counts']` dictionary. -/
def countsDict (df1 df2 : DataFrame) (ids1 ids2 : List PdValue) : RVal :=
  .dict [("df1_total_records", .nat df1.rows.length),
         ("df2_total_records", .nat df2.rows.length),
         ("df1_unique_ids", .nat (nunique ids1)),
         ("df2_unique_ids", .nat (nunique ids2))]

/-- The `report['columns']` dictionary. -/
def columnsDict (df1 df2 : DataFrame) : RVal :=
  .dict [("only_in_df1", rlistStr (columnsOnlyInDf1 df1 df2)),
         ("only_in_df2", rlistStr (columnsOnlyInDf1 df2 df1)),
         ("value_differences", .dict (value_differences df1 df2))]

/-- The flattened record-difference list produced on the success path. -/
def recordDiffsList (df1 df2 : DataFrame) (c : String) : List RecordDiff :=
  ((common_ids df1 df2 c).map (fun idv =>
    rowDiffs (commonColumns df1 df2) idv (reprRow df1 c idv) (reprRow df2 c idv))).flatten

/-- The full report dictionary produced on the success path. -/
def reportRV (df1 df2 : DataFrame) (c : String) : RVal :=
  .dict [("counts", countsDict df1 df2 (getColD df1 c) (getColD df2 c)),
         ("columns", columnsDict df1 df2),
         ("record_differences",
          .list ((recordDiffsList df1 df2 c).map rvalOfRecordDiff))]

/-- `compare_dataframes(df1, df2, unique_id_col)` from the source: the id
columns are accessed first (the counts step, where a missing column raises
`KeyError`), then the column, value-set and record comparisons run; the
function returns the report dictionary together with the record-difference
rows (the `pd.DataFrame(record_differences)` component). -/
def compare_dataframes (df1 df2 : DataFrame) (c : String) :
    Except PdError (RVal × List RecordDiff) := do
  let ids1 ← getCol df1 c
  let ids2 ← getCol df2 c
  let rds ← record_differences df1 df2 c
  pure (.dict [("counts", countsDict df1 df2 ids1 ids2),
               ("columns", columnsDict df1 df2),
               ("record_differences", .list (rds.map rvalOfRecordDiff))], rds)

/-! ### Membership lemmas for the set operations

`dedupBy` over a sound boolean equality (one implying real equality, as the
string equality of column names) preserves membership; over `pyEq`, whose
classes can merge distinct values (`True` and `1`), only class membership
is preserved. -/

theorem mem_dedupByAux {α : Type} (eq : α → α → Bool)
    (hs : ∀ a b, eq a b = true → a = b) :
    ∀ (l seen : List α) (v : α),
      v ∈ dedupByAux eq seen l ↔ (v ∈ l ∧ seen.any (fun b => eq b v) = false)
  | [], seen, v => by simp [dedupByAux]
  | a :: l, seen, v => by
    by_cases h : seen.any (fun b => eq b a) = true
    · rw [dedupByAux, if_pos h, mem_dedupByAux eq hs l seen v]
      constructor
      · rintro ⟨hl, hf⟩
        exact ⟨List.mem_cons_of_mem a hl, hf⟩
      · rintro ⟨hl, hf⟩
        rcases List.mem_cons.mp hl with hva | hvl
        · subst hva
          rw [h] at hf
          exact absurd hf (by simp)
        · exact ⟨hvl, hf⟩
    · have hb : seen.any (fun b => eq b a) = false := by
        cases hx : seen.any (fun b => eq b a) <;> simp_all
      rw [dedupByAux, if_neg h, List.mem_cons, mem_dedupByAux eq hs l (a :: seen) v]
      simp only [List.any_cons, Bool.or_eq_false_iff]
      constructor
      · rintro (hva | ⟨hvl, hea, hsf⟩)
        · subst hva
          exact ⟨List.mem_cons_self _ _, hb⟩
        · exact ⟨List.mem_cons_of_mem a hvl, hsf⟩
      · rintro ⟨hl, hsf⟩
        rcases List.mem_cons.mp hl with hva | hvl
        · exact Or.inl hva
        · by_cases hea : eq a v = true
          · exact Or.inl (hs a v hea).symm
          · exact Or.inr ⟨hvl, by simpa using hea, hsf⟩

theorem mem_dedupBy {α : Type} (eq : α → α → Bool)
    (hs : ∀ a b, eq a b = true → a = b) (l : List α) (v : α) :
    v ∈ dedupBy eq l ↔ v ∈ l := by
  rw [dedupBy, mem_dedupByAux eq hs]
  simp

theorem mem_dedupStr (l : List String) (v : String) : v ∈ dedupStr l ↔ v ∈ l :=
  mem_dedupBy (fun a b => a == b) (fun a b h => by simpa using h) l v

theorem mem_dedupByAux_sub {α : Type} (eq : α → α → Bool) :
    ∀ (l seen : List α) (v : α), v ∈ dedupByAux eq seen l → v ∈ l
  | [], _, v, h => by simp [dedupByAux] at h
  | a :: l, seen, v, h => by
    by_cases hc : seen.any (fun b => eq b a) = true
    · rw [dedupByAux, if_pos hc] at h
      exact List.mem_cons_of_mem a (mem_dedupByAux_sub eq l seen v h)
    · rw [dedupByAux, if_neg hc] at h
      rcases List.mem_cons.mp h with rfl | h2
      · exact List.mem_cons_self v l
      · exact List.mem_cons_of_mem a (mem_dedupByAux_sub eq l (a :: seen) v h2)

theorem mem_dedupPd_sub (l : List PdValue) (v : PdValue) (h : v ∈ dedupPd l) :
    v ∈ l :=
  mem_dedupByAux_sub pyEq l [] v h

theorem class_dedupByAux {α : Type} (eq : α → α → Bool)
    (hsymm : ∀ a b, eq a b = eq b a)
    (htrans : ∀ a b d, eq a b = true → eq b d = true → eq a d = true) :
    ∀ (l seen : List α) (v : α),
      (dedupByAux eq seen l).any (fun w => eq w v) = true ↔
        (l.any (fun w => eq w v) = true ∧ seen.any (fun w => eq w v) = false)
  | [], seen, v => by simp [dedupByAux]
  | a :: l, seen, v => by
    by_cases hc : seen.any (fun b => eq b a) = true
    · rw [dedupByAux, if_pos hc, class_dedupByAux eq hsymm htrans l seen v]
      simp only [List.any_cons, Bool.or_eq_true]
      constructor
      · rintro ⟨hl, hs⟩
        exact ⟨Or.inr hl, hs⟩
      · rintro ⟨hl | hl, hs⟩
        · obtain ⟨b, hb, hba⟩ := List.any_eq_true.mp hc
          have hbv : eq b v = true := htrans b a v hba hl
          have hsc : seen.any (fun w => eq w v) = true :=
            List.any_eq_true.mpr ⟨b, hb, hbv⟩
          rw [hsc] at hs
          exact absurd hs (by simp)
        · exact ⟨hl, hs⟩
    · rw [dedupByAux, if_neg hc]
      simp only [List.any_cons, Bool.or_eq_true,
        class_dedupByAux eq hsymm htrans l (a :: seen) v]
      constructor
      · rintro (hav | ⟨hl, hs⟩)
        · refine ⟨Or.inl hav, ?_⟩
          cases hx : seen.any (fun w => eq w v) with
          | false => rfl
          | true =>
            obtain ⟨b, hb, hbv⟩ := List.any_eq_true.mp hx
            have hva : eq v a = true := by
              rw [hsymm]
              exact hav
            have hba : eq b a = true := htrans b v a hbv hva
            have hsc : seen.any (fun b => eq b a) = true :=
              List.any_eq_true.mpr ⟨b, hb, hba⟩
            rw [hsc] at hc
            exact absurd rfl hc
        · simp only [List.any_cons, Bool.or_eq_false_iff] at hs
          exact ⟨Or.inr hl, hs.2⟩
      · rintro ⟨hav | hl, hs⟩
        · exact Or.inl hav
        · by_cases hav2 : eq a v = true
          · exact Or.inl hav2
          · refine Or.inr ⟨hl, ?_⟩
            simp only [List.any_cons, Bool.or_eq_false_iff]
            exact ⟨by simpa using hav2, hs⟩

theorem class_dedupPd (l : List PdValue) (v : PdValue) :
    (dedupPd l).any (fun w => pyEq w v) = true ↔ l.any (fun w => pyEq w v) = true := by
  rw [dedupPd, dedupBy, class_dedupByAux pyEq pyEq_symm pyEq_trans l [] v]
  simp

theorem mem_commonColumns (df1 df2 : DataFrame) (s : String) :
    s ∈ commonColumns df1 df2 ↔ s ∈ df1.cols ∧ s ∈ df2.cols := by
  rw [commonColumns, interBy]
  simp only [List.mem_filter, mem_dedupStr, List.any_eq_true]
  constructor
  · rintro ⟨h1, y, hy, he⟩
    obtain rfl : s = y := by simpa using he
    exact ⟨h1, hy⟩
  · rintro ⟨h1, h2⟩
    exact ⟨h1, s, h2, by simp⟩

theorem mem_commonColumns_symm (df1 df2 : DataFrame) (s : String) :
    s ∈ commonColumns df2 df1 ↔ s ∈ commonColumns df1 df2 := by
  rw [mem_commonColumns, mem_commonColumns]
  tauto

theorem mem_columnsOnlyInDf1 (dfa dfb : DataFrame) (s : String) :
    s ∈ columnsOnlyInDf1 dfa dfb ↔ s ∈ dfa.cols ∧ s ∉ dfb.cols := by
  rw [columnsOnlyInDf1, diffBy]
  simp only [List.mem_filter, mem_dedupStr, Bool.not_eq_eq_eq_not, Bool.not_true,
    List.any_eq_false]
  constructor
  · rintro ⟨h1, h2⟩
    refine ⟨h1, fun hb => ?_⟩
    have := h2 s hb
    simp at this
  · rintro ⟨h1, h2⟩
    refine ⟨h1, fun y hy he => ?_⟩
    obtain rfl : s = y := by simpa using he
    exact h2 hy

theorem mem_getColD (df : DataFrame) (c : String) (v : PdValue) :
    v ∈ getColD df c ↔ ∃ r ∈ df.rows, getCell r c = v := by
  rw [getColD]
  simp

/-! ### The common-id set under Python equality -/

theorem mem_common_ids_iff (df1 df2 : DataFrame) (c : String) (v : PdValue) :
    v ∈ common_ids df1 df2 c ↔
      v ∈ dedupPd (getColD df1 c) ∧
        (dedupPd (getColD df2 c)).any (fun y => pyEq v y) = true := by
  rw [common_ids, interBy]
  simp [List.mem_filter]

theorem common_ids_not_nan (df1 df2 : DataFrame) (c : String)
    (h : PdValue.nanV ∈ common_ids df1 df2 c) : False := by
  obtain ⟨-, h2⟩ := (mem_common_ids_iff df1 df2 c .nanV).mp h
  obtain ⟨y, -, hy⟩ := List.any_eq_true.mp h2
  rw [pyEq_nan_left] at hy
  exact absurd hy (by simp)

theorem noneV_mem_common_ids (df1 df2 : DataFrame) (c : String) :
    PdValue.noneV ∈ common_ids df1 df2 c ↔
      (PdValue.noneV ∈ getColD df1 c ∧ PdValue.noneV ∈ getColD df2 c) := by
  rw [mem_common_ids_iff]
  constructor
  · rintro ⟨h1, h2⟩
    obtain ⟨y, hy, hye⟩ := List.any_eq_true.mp h2
    obtain rfl : y = .noneV := (pyEq_none_iff y).mp hye
    exact ⟨mem_dedupPd_sub _ _ h1, mem_dedupPd_sub _ _ hy⟩
  · rintro ⟨h1, h2⟩
    have hc1 : (dedupPd (getColD df1 c)).any (fun w => pyEq w .noneV) = true :=
      (class_dedupPd _ _).mpr (List.any_eq_true.mpr ⟨.noneV, h1, by simp [pyEq]⟩)
    obtain ⟨w, hw, hwe⟩ := List.any_eq_true.mp hc1
    obtain rfl : w = .noneV := (pyEq_none_right_iff w).mp hwe
    have hc2 : (dedupPd (getColD df2 c)).any (fun w => pyEq w .noneV) = true :=
      (class_dedupPd _ _).mpr (List.any_eq_true.mpr ⟨.noneV, h2, by simp [pyEq]⟩)
    refine ⟨hw, ?_⟩
    obtain ⟨u, hu, hue⟩ := List.any_eq_true.mp hc2
    exact List.any_eq_true.mpr ⟨u, hu, by rw [pyEq_symm]; exact hue⟩

theorem exists_mask_row_left (df1 df2 : DataFrame) (c : String) (idv : PdValue)
    (h : idv ∈ common_ids df1 df2 c) (hne : idv ≠ .noneV) :
    ∃ row ∈ df1.rows, maskEq (getCell row c) idv = true := by
  have hnan : idv ≠ .nanV := by
    rintro rfl
    exact common_ids_not_nan df1 df2 c h
  have hna : idv.isNA = false := by
    cases idv <;> simp_all [PdValue.isNA]
  obtain ⟨h1, -⟩ := (mem_common_ids_iff df1 df2 c idv).mp h
  obtain ⟨row, hrow, hcell⟩ := (mem_getColD df1 c idv).mp (mem_dedupPd_sub _ _ h1)
  exact ⟨row, hrow, by rw [hcell]; exact maskEq_refl idv hna⟩

theorem exists_mask_row_right (df1 df2 : DataFrame) (c : String) (idv : PdValue)
    (h : idv ∈ common_ids df1 df2 c) (hne : idv ≠ .noneV) :
    ∃ row ∈ df2.rows, maskEq (getCell row c) idv = true := by
  obtain ⟨-, h2⟩ := (mem_common_ids_iff df1 df2 c idv).mp h
  obtain ⟨y, hy, hye⟩ := List.any_eq_true.mp h2
  obtain ⟨row, hrow, hcell⟩ := (mem_getColD df2 c y).mp (mem_dedupPd_sub _ _ hy)
  have hm : maskEq idv y = true := by
    rw [← pyEq_eq_maskEq idv y hne]
    exact hye
  exact ⟨row, hrow, by rw [hcell, maskEq_comm]; exact hm⟩

theorem inClass_common_ids (df1 df2 : DataFrame) (c : String) (v : PdValue) :
    (∃ w ∈ common_ids df1 df2 c, pyEq w v = true) ↔
      ((∃ w ∈ getColD df1 c, pyEq w v = true) ∧
       (∃ u ∈ getColD df2 c, pyEq u v = true)) := by
  constructor
  · rintro ⟨w, hw, hwv⟩
    obtain ⟨h1, h2⟩ := (mem_common_ids_iff df1 df2 c w).mp hw
    obtain ⟨y, hy, hwy⟩ := List.any_eq_true.mp h2
    refine ⟨⟨w, mem_dedupPd_sub _ _ h1, hwv⟩, ⟨y, mem_dedupPd_sub _ _ hy, ?_⟩⟩
    have hyw : pyEq y w = true := by
      rw [pyEq_symm]
      exact hwy
    exact pyEq_trans y w v hyw hwv
  · rintro ⟨⟨w0, hw0, hw0v⟩, ⟨u0, hu0, hu0v⟩⟩
    have hc1 : (dedupPd (getColD df1 c)).any (fun w => pyEq w v) = true :=
      (class_dedupPd _ _).mpr (List.any_eq_true.mpr ⟨w0, hw0, hw0v⟩)
    obtain ⟨w, hw, hwv⟩ := List.any_eq_true.mp hc1
    have hu0w : pyEq u0 w = true := by
      refine pyEq_trans u0 v w hu0v ?_
      rw [pyEq_symm]
      exact hwv
    have hc2 : (dedupPd (getColD df2 c)).any (fun u => pyEq u w) = true :=
      (class_dedupPd _ _).mpr (List.any_eq_true.mpr ⟨u0, hu0, hu0w⟩)
    obtain ⟨u, hu, huw⟩ := List.any_eq_true.mp hc2
    refine ⟨w, (mem_common_ids_iff df1 df2 c w).mpr ⟨hw, ?_⟩, hwv⟩
    exact List.any_eq_true.mpr ⟨u, hu, by rw [pyEq_symm]; exact huw⟩

theorem inClass_diffBy (l1 l2 : List PdValue) (v : PdValue) :
    (∃ w ∈ diffBy pyEq (dedupPd l1) (dedupPd l2), pyEq w v = true) ↔
      ((∃ w ∈ l1, pyEq w v = true) ∧ ¬(∃ u ∈ l2, pyEq u v = true)) := by
  constructor
  · rintro ⟨w, hw, hwv⟩
    rw [diffBy, List.mem_filter] at hw
    obtain ⟨hw1, hw2⟩ := hw
    refine ⟨⟨w, mem_dedupPd_sub _ _ hw1, hwv⟩, ?_⟩
    rintro ⟨u, hu, huv⟩
    have huw : pyEq u w = true := by
      refine pyEq_trans u v w huv ?_
      rw [pyEq_symm]
      exact hwv
    have hc : (dedupPd l2).any (fun y => pyEq y w) = true :=
      (class_dedupPd _ _).mpr (List.any_eq_true.mpr ⟨u, hu, huw⟩)
    obtain ⟨y, hy, hyw⟩ := List.any_eq_true.mp hc
    have : (dedupPd l2).any (fun y => pyEq w y) = true :=
      List.any_eq_true.mpr ⟨y, hy, by rw [pyEq_symm]; exact hyw⟩
    rw [this] at hw2
    exact absurd hw2 (by simp)
  · rintro ⟨⟨w0, hw0, hw0v⟩, hno⟩
    have hc1 : (dedupPd l1).any (fun w => pyEq w v) = true :=
      (class_dedupPd _ _).mpr (List.any_eq_true.mpr ⟨w0, hw0, hw0v⟩)
    obtain ⟨w, hw, hwv⟩ := List.any_eq_true.mp hc1
    refine ⟨w, ?_, hwv⟩
    rw [diffBy, List.mem_filter]
    refine ⟨hw, ?_⟩
    cases hx : (dedupPd l2).any (fun y => pyEq w y) with
    | false => rfl
    | true =>
      obtain ⟨y, hy, hwy⟩ := List.any_eq_true.mp hx
      have hyv : pyEq y v = true := by
        refine pyEq_trans y w v ?_ hwv
        rw [pyEq_symm]
        exact hwy
      exact absurd ⟨y, mem_dedupPd_sub _ _ hy, hyv⟩ hno

/-! ### Representative-row selection -/

theorem find?_eq_some_first {α : Type} (p : α → Bool) :
    ∀ (l : List α) (a : α), l.find? p = some a →
      ∃ i, ∃ hi : i < l.length, l.get ⟨i, hi⟩ = a ∧ p a = true ∧
        ∀ b ∈ l.take i, p b = false
  | [], a, h => by simp [List.find?] at h
  | x :: l, a, h => by
    by_cases hx : p x = true
    · rw [List.find?_cons_of_pos l hx] at h
      obtain rfl : x = a := by simpa using h
      exact ⟨0, by simp, rfl, hx, by simp⟩
    · rw [List.find?_cons_of_neg l hx] at h
      obtain ⟨i, hi, hget, hpa, htake⟩ := find?_eq_some_first p l a h
      refine ⟨i + 1, by simpa using Nat.succ_lt_succ hi, by simpa using hget, hpa, ?_⟩
      intro b hb
      rw [List.take_succ_cons] at hb
      rcases List.mem_cons.mp hb with rfl | hbl
      · cases hpb : p b
        · rfl
        · exact absurd hpb hx
      · exact htake b hbl

theorem ilocFirst_eq_ok (df : DataFrame) (c : String) (idv : PdValue)
    (h : ∃ row ∈ df.rows, maskEq (getCell row c) idv = true) :
    ilocFirst df c idv = .ok (reprRow df c idv) ∧
      maskEq (getCell (reprRow df c idv) c) idv = true := by
  obtain ⟨r, hr, hp⟩ := h
  have hfind : (df.rows.find? (fun r => maskEq (getCell r c) idv)).isSome = true :=
    List.find?_isSome.mpr ⟨r, hr, hp⟩
  obtain ⟨row, hrow⟩ := Option.isSome_iff_exists.mp hfind
  have hprow : maskEq (getCell row c) idv = true :=
    @List.find?_some Row (fun r => maskEq (getCell r c) idv) row df.rows hrow
  rw [ilocFirst, reprRow, hrow]
  exact ⟨rfl, hprow⟩

theorem ilocFirst_noneV (df : DataFrame) (c : String) :
    ilocFirst df c .noneV = .error .indexError := by
  rw [ilocFirst]
  have hnone : df.rows.find? (fun r => maskEq (getCell r c) .noneV) = none := by
    rw [List.find?_eq_none]
    intro r hr
    simp [maskEq_noneV_right]
  rw [hnone]

theorem reprRow_congr (df : DataFrame) (c : String) (idv idw : PdValue)
    (h : maskEq idv idw = true) : reprRow df c idv = reprRow df c idw := by
  rw [reprRow, reprRow]
  have hp : (fun r => maskEq (getCell r c) idv) = (fun r => maskEq (getCell r c) idw) := by
    funext r
    cases hx : maskEq (getCell r c) idv with
    | true =>
      exact (maskEq_trans (getCell r c) idv idw hx h).symm
    | false =>
      cases hy : maskEq (getCell r c) idw with
      | false => rfl
      | true =>
        have hwv : maskEq idw idv = true := by
          rw [maskEq_comm]
          exact h
        have hxy : maskEq (getCell r c) idv = true :=
          maskEq_trans (getCell r c) idw idv hy hwv
        rw [hx] at hxy
        exact absurd hxy (by simp)
  rw [hp]

/-! ### The success and failure paths of the comparison -/

theorem mapM_rows_eq_ok (df1 df2 : DataFrame) (c : String) :
    ∀ l : List PdValue,
      (∀ v ∈ l, (∃ row ∈ df1.rows, maskEq (getCell row c) v = true) ∧
                (∃ row ∈ df2.rows, maskEq (getCell row c) v = true)) →
      (l.mapM (fun idv => do
          let r1 ← ilocFirst df1 c idv
          let r2 ← ilocFirst df2 c idv
          pure (rowDiffs (commonColumns df1 df2) idv r1 r2)) : Except PdError _)
        = .ok (l.map (fun idv =>
            rowDiffs (commonColumns df1 df2) idv (reprRow df1 c idv) (reprRow df2 c idv)))
  | [], _ => rfl
  | v :: l, h => by
    obtain ⟨h1, h2⟩ := h v (List.mem_cons_self v l)
    have e1 := (ilocFirst_eq_ok df1 c v h1).1
    have e2 := (ilocFirst_eq_ok df2 c v h2).1
    have ih := mapM_rows_eq_ok df1 df2 c l (fun w hw => h w (List.mem_cons_of_mem v hw))
    rw [List.mapM_cons, e1, e2, ih]
    rfl

theorem mapM_rows_error (df1 df2 : DataFrame) (c : String) :
    ∀ l : List PdValue, (∀ v ∈ l, v ∈ common_ids df1 df2 c) → PdValue.noneV ∈ l →
      (l.mapM (fun idv => do
          let r1 ← ilocFirst df1 c idv
          let r2 ← ilocFirst df2 c idv
          pure (rowDiffs (commonColumns df1 df2) idv r1 r2)) : Except PdError _)
        = .error .indexError
  | [], _, hmem => by simp at hmem
  | v :: l, h, hmem => by
    by_cases hv : v = .noneV
    · subst hv
      rw [List.mapM_cons, ilocFirst_noneV]
      rfl
    · have hvc := h v (List.mem_cons_self v l)
      have h1 := exists_mask_row_left df1 df2 c v hvc hv
      have h2 := exists_mask_row_right df1 df2 c v hvc hv
      have e1 := (ilocFirst_eq_ok df1 c v h1).1
      have e2 := (ilocFirst_eq_ok df2 c v h2).1
      have hmem2 : PdValue.noneV ∈ l := by
        rcases List.mem_cons.mp hmem with he | hl
        · exact absurd he.symm hv
        · exact hl
      rw [List.mapM_cons, e1, e2,
        mapM_rows_error df1 df2 c l (fun w hw => h w (List.mem_cons_of_mem v hw)) hmem2]
      rfl

theorem common_ids_rows (df1 df2 : DataFrame) (c : String)
    (hn : ¬(PdValue.noneV ∈ getColD df1 c ∧ PdValue.noneV ∈ getColD df2 c)) :
    ∀ v ∈ common_ids df1 df2 c,
      (∃ row ∈ df1.rows, maskEq (getCell row c) v = true) ∧
      (∃ row ∈ df2.rows, maskEq (getCell row c) v = true) := by
  intro v hv
  have hvn : v ≠ .noneV := by
    rintro rfl
    exact hn ((noneV_mem_common_ids df1 df2 c).mp hv)
  exact ⟨exists_mask_row_left df1 df2 c v hv hvn,
    exists_mask_row_right df1 df2 c v hv hvn⟩

theorem record_differences_eq (df1 df2 : DataFrame) (c : String)
    (hn : ¬(PdValue.noneV ∈ getColD df1 c ∧ PdValue.noneV ∈ getColD df2 c)) :
    record_differences df1 df2 c = .ok (recordDiffsList df1 df2 c) := by
  rw [record_differences,
    mapM_rows_eq_ok df1 df2 c (common_ids df1 df2 c) (common_ids_rows df1 df2 c hn)]
  rfl

theorem record_differences_error (df1 df2 : DataFrame) (c : String)
    (h1 : PdValue.noneV ∈ getColD df1 c) (h2 : PdValue.noneV ∈ getColD df2 c) :
    record_differences df1 df2 c = .error .indexError := by
  rw [record_differences,
    mapM_rows_error df1 df2 c (common_ids df1 df2 c) (fun v hv => hv)
      ((noneV_mem_common_ids df1 df2 c).mpr ⟨h1, h2⟩)]
  rfl

theorem compare_ok (df1 df2 : DataFrame) (c : String)
    (h1 : df1.cols.contains c = true) (h2 : df2.cols.contains c = true)
    (hn : ¬(PdValue.noneV ∈ getColD df1 c ∧ PdValue.noneV ∈ getColD df2 c)) :
    compare_dataframes df1 df2 c
      = .ok (reportRV df1 df2 c, recordDiffsList df1 df2 c) := by
  rw [compare_dataframes, getCol, if_pos h1, getCol, if_pos h2,
    record_differences_eq df1 df2 c hn]
  rfl

theorem compare_error (df1 df2 : DataFrame) (c : String)
    (h : df1.cols.contains c = false ∨ df2.cols.contains c = false) :
    compare_dataframes df1 df2 c = .error (.keyError c) := by
  by_cases h1 : df1.cols.contains c = true
  · have h2 : df2.cols.contains c = false := by
      rcases h with ha | hb
      · rw [h1] at ha
        exact absurd ha (by simp)
      · exact hb
    rw [compare_dataframes, getCol, if_pos h1, getCol, if_neg (by simpa using h2)]
    rfl
  · rw [compare_dataframes, getCol, if_neg h1]
    rfl

theorem compare_error_none (df1 df2 : DataFrame) (c : String)
    (h1 : df1.cols.contains c = true) (h2 : df2.cols.contains c = true)
    (hn1 : PdValue.noneV ∈ getColD df1 c) (hn2 : PdValue.noneV ∈ getColD df2 c) :
    compare_dataframes df1 df2 c = .error .indexError := by
  rw [compare_dataframes, getCol, if_pos h1, getCol, if_pos h2,
    record_differences_error df1 df2 c hn1 hn2]
  rfl

theorem compare_ok_inv (df1 df2 : DataFrame) (c : String)
    (p : RVal × List RecordDiff) (h : compare_dataframes df1 df2 c = .ok p) :
    df1.cols.contains c = true ∧ df2.cols.contains c = true ∧
      ¬(PdValue.noneV ∈ getColD df1 c ∧ PdValue.noneV ∈ getColD df2 c) ∧
      p = (reportRV df1 df2 c, recordDiffsList df1 df2 c) := by
  by_cases h1 : df1.cols.contains c = true
  · by_cases h2 : df2.cols.contains c = true
    · by_cases hn : (PdValue.noneV ∈ getColD df1 c ∧ PdValue.noneV ∈ getColD df2 c)
      · rw [compare_error_none df1 df2 c h1 h2 hn.1 hn.2] at h
        exact absurd h (by simp)
      · rw [compare_ok df1 df2 c h1 h2 hn] at h
        exact ⟨h1, h2, hn, by simpa using h.symm⟩
    · rw [compare_error df1 df2 c (Or.inr (by simpa using h2))] at h
      exact absurd h (by simp)
  · rw [compare_error df1 df2 c (Or.inl (by simpa using h1))] at h
    exact absurd h (by simp)

/-! ### Membership characterisations for the record differences -/

theorem mem_rowDiffs (common : List String) (idv : PdValue) (r1 r2 : Row)
    (e : RecordDiff) :
    e ∈ rowDiffs common idv r1 r2 ↔
      e.recordId = idv ∧ e.column ∈ common ∧
      pdStr (getCell r1 e.column) ≠ pdStr (getCell r2 e.column) ∧
      e.df1Value = pdStr (getCell r1 e.column) ∧
      e.df2Value = pdStr (getCell r2 e.column) := by
  rw [rowDiffs]
  simp only [List.mem_filterMap]
  constructor
  · rintro ⟨col, hcol, hsome⟩
    by_cases hne : pdStr (getCell r1 col) = pdStr (getCell r2 col)
    · simp [hne] at hsome
    · have he : e = ⟨idv, col, pdStr (getCell r1 col), pdStr (getCell r2 col)⟩ := by
        by_cases hx : pdStr (getCell r1 col) = pdStr (getCell r2 col)
        · exact absurd hx hne
        · simpa [hx] using hsome.symm
      subst he
      exact ⟨rfl, hcol, hne, rfl, rfl⟩
  · rintro ⟨hid, hcol, hne, h1, h2⟩
    refine ⟨e.column, hcol, ?_⟩
    obtain ⟨i, co, d1, d2⟩ := e
    simp only at hid h1 h2
    subst hid
    subst h1
    subst h2
    simp [hne]

theorem mem_recordDiffsList (df1 df2 : DataFrame) (c : String) (e : RecordDiff) :
    e ∈ recordDiffsList df1 df2 c ↔
      e.recordId ∈ common_ids df1 df2 c ∧ e.column ∈ commonColumns df1 df2 ∧
      pdStr (getCell (reprRow df1 c e.recordId) e.column)
        ≠ pdStr (getCell (reprRow df2 c e.recordId) e.column) ∧
      e.df1Value = pdStr (getCell (reprRow df1 c e.recordId) e.column) ∧
      e.df2Value = pdStr (getCell (reprRow df2 c e.recordId) e.column) := by
  rw [recordDiffsList]
  simp only [List.mem_flatten, List.mem_map]
  constructor
  · rintro ⟨L, ⟨idv, hidv, rfl⟩, he⟩
    obtain ⟨hid, hcol, hne, h1, h2⟩ := (mem_rowDiffs _ _ _ _ e).mp he
    rw [hid]
    exact ⟨hidv, hcol, hid ▸ hne, hid ▸ h1, hid ▸ h2⟩
  · rintro ⟨hid, hcol, hne, h1, h2⟩
    exact ⟨_, ⟨e.recordId, hid, rfl⟩,
      (mem_rowDiffs _ _ _ _ e).mpr ⟨rfl, hcol, hne, h1, h2⟩⟩

/-! ### Lookup of a column in the value-differences dictionary -/

theorem lookup_filterMap_vd (df1 df2 : DataFrame) (c : String) :
    ∀ L : List String,
      (List.lookup c (L.filterMap (valueDiffEntry df1 df2))).isSome = true ↔
        (c ∈ L ∧ setEqBy pyEq (valueSet df1 c) (valueSet df2 c) = false)
  | [] => by simp
  | a :: L => by
    by_cases hqa : setEqBy pyEq (valueSet df1 a) (valueSet df2 a) = true
    · have hnone : valueDiffEntry df1 df2 a = none := by
        rw [valueDiffEntry]
        simp [hqa]
      rw [List.filterMap_cons, hnone, lookup_filterMap_vd df1 df2 c L]
      constructor
      · rintro ⟨hl, hq⟩
        exact ⟨List.mem_cons_of_mem a hl, hq⟩
      · rintro ⟨hl, hq⟩
        rcases List.mem_cons.mp hl with rfl | hvl
        · rw [hqa] at hq
          exact absurd hq (by simp)
        · exact ⟨hvl, hq⟩
    · have hqa2 : setEqBy pyEq (valueSet df1 a) (valueSet df2 a) = false := by
        cases hx : setEqBy pyEq (valueSet df1 a) (valueSet df2 a) <;> simp_all
      have hsome : valueDiffEntry df1 df2 a = some (a, RVal.dict
          [("df1_values", rlistPd (safe_sort (valueSet df1 a))),
           ("df2_values", rlistPd (safe_sort (valueSet df2 a))),
           ("only_in_df1", rlistPd (safe_sort (diffBy pyEq (valueSet df1 a) (valueSet df2 a)))),
           ("only_in_df2", rlistPd (safe_sort (diffBy pyEq (valueSet df2 a) (valueSet df1 a))))]) := by
        rw [valueDiffEntry]
        simp [hqa2]
      rw [List.filterMap_cons, hsome]
      by_cases hca : c = a
      · subst hca
        simp [List.lookup_cons, hqa2]
      · have hbeq : (c == a) = false := by simpa using hca
        rw [List.lookup_cons]
        simp only [hbeq]
        rw [lookup_filterMap_vd df1 df2 c L]
        constructor
        · rintro ⟨hl, hq⟩
          exact ⟨List.mem_cons_of_mem a hl, hq⟩
        · rintro ⟨hl, hq⟩
          rcases List.mem_cons.mp hl with rfl | hvl
          · exact absurd rfl hca
          · exact ⟨hvl, hq⟩

theorem lookup_value_differences (df1 df2 : DataFrame) (c : String) :
    (List.lookup c (value_differences df1 df2)).isSome = true ↔
      (c ∈ commonColumns df1 df2 ∧
        setEqBy pyEq (valueSet df1 c) (valueSet df2 c) = false) := by
  rw [value_differences]
  exact lookup_filterMap_vd df1 df2 c (commonColumns df1 df2)

/-! ### Spec-level match statuses

The report produced by the code contains no unmatched-record section; the
spec's KeyedJoiner partitions are modelled here from the spec text so that
claims speaking about them can be stated and compared with what the code
computes. -/

inductive MatchStatus where
  | Matched : MatchStatus
  | MissingInNew : MatchStatus
  | MissingInOld : MatchStatus
deriving DecidableEq, Repr

/-- Modelled from the spec: the code computes no unmatched-record output, so
the spec's KeyedJoiner is rendered from its words — `idsOnlyInOld = idsOld −
idsNew` (status MissingInNew) and `idsOnlyInNew = idsNew − idsOld` (status
MissingInOld), over the id sets of the two tables with Python set
equality. -/
def specUnmatchedRecords (df1 df2 : DataFrame) (c : String) :
    List (PdValue × MatchStatus) :=
  (diffBy pyEq (dedupPd (getColD df1 c)) (dedupPd (getColD df2 c))).map
      (fun v => (v, MatchStatus.MissingInNew))
    ++ (diffBy pyEq (dedupPd (getColD df2 c)) (dedupPd (getColD df1 c))).map
      (fun v => (v, MatchStatus.MissingInOld))

theorem mem_specUnmatched (df1 df2 : DataFrame) (c : String) (v : PdValue)
    (st : MatchStatus) :
    (v, st) ∈ specUnmatchedRecords df1 df2 c ↔
      ((st = MatchStatus.MissingInNew ∧
         v ∈ diffBy pyEq (dedupPd (getColD df1 c)) (dedupPd (getColD df2 c))) ∨
       (st = MatchStatus.MissingInOld ∧
         v ∈ diffBy pyEq (dedupPd (getColD df2 c)) (dedupPd (getColD df1 c)))) := by
  rw [specUnmatchedRecords]
  simp only [List.mem_append, List.mem_map, Prod.mk.injEq]
  constructor
  · rintro (⟨w, hw, rfl, rfl⟩ | ⟨w, hw, rfl, rfl⟩)
    · exact Or.inl ⟨rfl, hw⟩
    · exact Or.inr ⟨rfl, hw⟩
  · rintro (⟨rfl, hw⟩ | ⟨rfl, hw⟩)
    · exact Or.inl ⟨v, hw, rfl, rfl⟩
    · exact Or.inr ⟨v, hw, rfl, rfl⟩

theorem inClass_missingInNew (df1 df2 : DataFrame) (c : String) (v : PdValue) :
    (∃ w, (w, MatchStatus.MissingInNew) ∈ specUnmatchedRecords df1 df2 c ∧
        pyEq w v = true) ↔
      ((∃ w ∈ getColD df1 c, pyEq w v = true) ∧
        ¬(∃ u ∈ getColD df2 c, pyEq u v = true)) := by
  rw [← inClass_diffBy (getColD df1 c) (getColD df2 c) v]
  constructor
  · rintro ⟨w, hw, hwv⟩
    rcases (mem_specUnmatched df1 df2 c w MatchStatus.MissingInNew).mp hw with
      ⟨-, hd⟩ | ⟨hst, -⟩
    · exact ⟨w, hd, hwv⟩
    · exact absurd hst (by simp)
  · rintro ⟨w, hw, hwv⟩
    exact ⟨w, (mem_specUnmatched df1 df2 c w MatchStatus.MissingInNew).mpr
      (Or.inl ⟨rfl, hw⟩), hwv⟩

theorem inClass_missingInOld (df1 df2 : DataFrame) (c : String) (v : PdValue) :
    (∃ w, (w, MatchStatus.MissingInOld) ∈ specUnmatchedRecords df1 df2 c ∧
        pyEq w v = true) ↔
      ((∃ w ∈ getColD df2 c, pyEq w v = true) ∧
        ¬(∃ u ∈ getColD df1 c, pyEq u v = true)) := by
  rw [← inClass_diffBy (getColD df2 c) (getColD df1 c) v]
  constructor
  · rintro ⟨w, hw, hwv⟩
    rcases (mem_specUnmatched df1 df2 c w MatchStatus.MissingInOld).mp hw with
      ⟨hst, -⟩ | ⟨-, hd⟩
    · exact absurd hst (by simp)
    · exact ⟨w, hd, hwv⟩
  · rintro ⟨w, hw, hwv⟩
    exact ⟨w, (mem_specUnmatched df1 df2 c w MatchStatus.MissingInOld).mpr
      (Or.inr ⟨rfl, hw⟩), hwv⟩

/-- Old and new value swapped in a record-difference entry. -/
def swapRecordDiff (e : RecordDiff) : RecordDiff :=
  ⟨e.recordId, e.column, e.df2Value, e.df1Value⟩

/-- Python `==` on two record-difference entries (dict equality): the record
ids compare under Python equality, the column and the two rendered values
as strings. -/
def entryPyEq (a b : RecordDiff) : Bool :=
  pyEq a.recordId b.recordId && (a.column == b.column) &&
    (a.df1Value == b.df1Value) && (a.df2Value == b.df2Value)

/-! ### Claim C1 -/

/-- C1: if the id column is absent from one or both tables, the comparison
fails before any comparison step and produces no report; the failure is the
`KeyError` of the first failing id-column access, carrying the column name
(amended: the error is a `KeyError` naming the column, not a `SchemaError`
naming the missing side or sides). -/
theorem claimC1_missing_id_fails (df1 df2 : DataFrame) (c : String)
    (h : df1.cols.contains c = false ∨ df2.cols.contains c = false) :
    compare_dataframes df1 df2 c = .error (.keyError c) :=
  compare_error df1 df2 c h

def tblC1yes : DataFrame := ⟨["id"], [[("id", .intV 1)]]⟩

def tblC1no : DataFrame := ⟨["a"], [[("a", .intV 1)]]⟩

/-- C1 witness: a concrete pair where the id column is missing from the old
table: the comparison fails with `KeyError("id")` and no report exists. -/
theorem claimC1_missing_id_fails_witness :
    (tblC1no.cols.contains "id" = false ∨ tblC1yes.cols.contains "id" = false) ∧
    compare_dataframes tblC1no tblC1yes "id" = .error (.keyError "id") :=
  ⟨Or.inl (by decide), claimC1_missing_id_fails tblC1no tblC1yes "id" (Or.inl (by decide))⟩

/-- C1 counterexample: the error does not name the missing side(s) and is
not a schema-specific error: the pair (old missing, new present) and the
pair (old present, new missing) produce the identical `KeyError("id")`, so
no side information is carried. -/
theorem claimC1_counterexample :
    compare_dataframes tblC1no tblC1yes "id" = .error (.keyError "id") ∧
    compare_dataframes tblC1yes tblC1no "id" = .error (.keyError "id") :=
  ⟨rfl, rfl⟩

/-! ### Claim C2 -/

/-- C2 (amended): every id occurring in either id column (for tables whose
id columns contain no nulls) belongs, under Python equality of ids, to
exactly one of the three partitions `common_ids`, spec-level MissingInNew,
spec-level MissingInOld; the code's report, however, contains no
unmatched-record sequence — the only place ids appear is
`record_differences`, which draws them from `common_ids` only, so ids
outside the intersection are silently dropped. -/
theorem claimC2_partition (df1 df2 : DataFrame) (c : String) (v : PdValue)
    (_hn1 : PdValue.noneV ∉ getColD df1 c) (_hn2 : PdValue.noneV ∉ getColD df2 c)
    (hm1 : PdValue.nanV ∉ getColD df1 c) (hm2 : PdValue.nanV ∉ getColD df2 c)
    (hv : v ∈ getColD df1 c ∨ v ∈ getColD df2 c) :
    (((∃ w ∈ common_ids df1 df2 c, pyEq w v = true) ∧
        ¬(∃ w, (w, MatchStatus.MissingInNew) ∈ specUnmatchedRecords df1 df2 c ∧
            pyEq w v = true) ∧
        ¬(∃ w, (w, MatchStatus.MissingInOld) ∈ specUnmatchedRecords df1 df2 c ∧
            pyEq w v = true))
     ∨ (¬(∃ w ∈ common_ids df1 df2 c, pyEq w v = true) ∧
        (∃ w, (w, MatchStatus.MissingInNew) ∈ specUnmatchedRecords df1 df2 c ∧
            pyEq w v = true) ∧
        ¬(∃ w, (w, MatchStatus.MissingInOld) ∈ specUnmatchedRecords df1 df2 c ∧
            pyEq w v = true))
     ∨ (¬(∃ w ∈ common_ids df1 df2 c, pyEq w v = true) ∧
        ¬(∃ w, (w, MatchStatus.MissingInNew) ∈ specUnmatchedRecords df1 df2 c ∧
            pyEq w v = true) ∧
        (∃ w, (w, MatchStatus.MissingInOld) ∈ specUnmatchedRecords df1 df2 c ∧
            pyEq w v = true)))
    ∧ (∀ e ∈ recordDiffsList df1 df2 c, e.recordId ∈ common_ids df1 df2 c) := by
  have hvnan : v ≠ .nanV := by
    rintro rfl
    rcases hv with h | h
    · exact hm1 h
    · exact hm2 h
  have hAB : (∃ w ∈ getColD df1 c, pyEq w v = true) ∨
      (∃ w ∈ getColD df2 c, pyEq w v = true) := by
    rcases hv with h | h
    · exact Or.inl ⟨v, h, pyEq_refl v hvnan⟩
    · exact Or.inr ⟨v, h, pyEq_refl v hvnan⟩
  have hciff := inClass_common_ids df1 df2 c v
  have hmn := inClass_missingInNew df1 df2 c v
  have hmo := inClass_missingInOld df1 df2 c v
  constructor
  · by_cases hA : (∃ w ∈ getColD df1 c, pyEq w v = true)
    · by_cases hB : (∃ w ∈ getColD df2 c, pyEq w v = true)
      · exact Or.inl ⟨hciff.mpr ⟨hA, hB⟩,
          fun hx => (hmn.mp hx).2 hB,
          fun hx => (hmo.mp hx).2 hA⟩
      · exact Or.inr (Or.inl ⟨fun hx => hB (hciff.mp hx).2,
          hmn.mpr ⟨hA, hB⟩,
          fun hx => hB (hmo.mp hx).1⟩)
    · have hB : (∃ w ∈ getColD df2 c, pyEq w v = true) := hAB.resolve_left hA
      exact Or.inr (Or.inr ⟨fun hx => hA (hciff.mp hx).1,
          fun hx => hA (hmn.mp hx).1,
          hmo.mpr ⟨hB, hA⟩⟩)
  · intro e he
    exact ((mem_recordDiffsList df1 df2 c e).mp he).1

def tblC2a : DataFrame := ⟨["id"], [[("id", .intV 1)], [("id", .intV 3)]]⟩

def tblC2b : DataFrame := ⟨["id"], [[("id", .intV 1)], [("id", .intV 4)]]⟩

/-- C2 witness: concrete tables with ids {1,3} and {1,4}; the id 3 falls in
the MissingInNew partition and appears in no record difference. -/
theorem claimC2_partition_witness :
    (PdValue.noneV ∉ getColD tblC2a "id") ∧ (PdValue.noneV ∉ getColD tblC2b "id") ∧
    (PdValue.nanV ∉ getColD tblC2a "id") ∧ (PdValue.nanV ∉ getColD tblC2b "id") ∧
    (PdValue.intV 3 ∈ getColD tblC2a "id" ∨ PdValue.intV 3 ∈ getColD tblC2b "id") ∧
    ((((∃ w ∈ common_ids tblC2a tblC2b "id", pyEq w (PdValue.intV 3) = true) ∧
        ¬(∃ w, (w, MatchStatus.MissingInNew) ∈ specUnmatchedRecords tblC2a tblC2b "id" ∧
            pyEq w (PdValue.intV 3) = true) ∧
        ¬(∃ w, (w, MatchStatus.MissingInOld) ∈ specUnmatchedRecords tblC2a tblC2b "id" ∧
            pyEq w (PdValue.intV 3) = true))
     ∨ (¬(∃ w ∈ common_ids tblC2a tblC2b "id", pyEq w (PdValue.intV 3) = true) ∧
        (∃ w, (w, MatchStatus.MissingInNew) ∈ specUnmatchedRecords tblC2a tblC2b "id" ∧
            pyEq w (PdValue.intV 3) = true) ∧
        ¬(∃ w, (w, MatchStatus.MissingInOld) ∈ specUnmatchedRecords tblC2a tblC2b "id" ∧
            pyEq w (PdValue.intV 3) = true))
     ∨ (¬(∃ w ∈ common_ids tblC2a tblC2b "id", pyEq w (PdValue.intV 3) = true) ∧
        ¬(∃ w, (w, MatchStatus.MissingInNew) ∈ specUnmatchedRecords tblC2a tblC2b "id" ∧
            pyEq w (PdValue.intV 3) = true) ∧
        (∃ w, (w, MatchStatus.MissingInOld) ∈ specUnmatchedRecords tblC2a tblC2b "id" ∧
            pyEq w (PdValue.intV 3) = true)))
    ∧ (∀ e ∈ recordDiffsList tblC2a tblC2b "id",
        e.recordId ∈ common_ids tblC2a tblC2b "id")) :=
  ⟨by decide, by decide, by decide, by decide, by decide,
    claimC2_partition tblC2a tblC2b "id" (PdValue.intV 3)
      (by decide) (by decide) (by decide) (by decide) (by decide)⟩

def tblC2int : DataFrame := ⟨["id"], [[("id", .intV 1)]]⟩

def tblC2str : DataFrame := ⟨["id"], [[("id", .strV "1")]]⟩

/-- C2 counterexample: the produced report does not contain the unmatched
partition.  Two input pairs — one where both tables hold the integer id 1
(no unmatched ids) and one where the new table holds the string id "1"
instead (both ids unmatched) — produce the identical report, so no part of
the report can assign the unmatched ids their statuses. -/
theorem claimC2_counterexample :
    compare_dataframes tblC2int tblC2int "id" = compare_dataframes tblC2int tblC2str "id" ∧
    specUnmatchedRecords tblC2int tblC2int "id" ≠ specUnmatchedRecords tblC2int tblC2str "id" :=
  ⟨rfl, by decide⟩

/-! ### Claim C3 -/

/-- C3 (amended): the report contains `df1_total_records = len(df1)` and
`df2_total_records = len(df2)` under `counts`, independent of the tables'
content; it contains no `countsMatch` field (see the counterexample), the
spec's `countsMatch` being merely derivable from these two counts. -/
theorem claimC3_counts (df1 df2 : DataFrame) (c : String) (r : RVal)
    (rds : List RecordDiff)
    (h : compare_dataframes df1 df2 c = .ok (r, rds)) :
    lookupPath r ["counts", "df1_total_records"] = some (.nat df1.rows.length) ∧
    lookupPath r ["counts", "df2_total_records"] = some (.nat df2.rows.length) := by
  obtain ⟨h1, h2, hn, hp⟩ := compare_ok_inv df1 df2 c (r, rds) h
  obtain ⟨hr, -⟩ : r = reportRV df1 df2 c ∧ rds = recordDiffsList df1 df2 c := by
    simpa using hp
  subst hr
  exact ⟨rfl, rfl⟩

def tblC3a : DataFrame := ⟨["id"], [[("id", .intV 1)], [("id", .intV 2)]]⟩

/-- C3 witness: at concrete equal-length tables the two counts are reported
as 2 and 2. -/
theorem claimC3_counts_witness :
    compare_dataframes tblC3a tblC3a "id"
      = .ok (reportRV tblC3a tblC3a "id", recordDiffsList tblC3a tblC3a "id") ∧
    lookupPath (reportRV tblC3a tblC3a "id") ["counts", "df1_total_records"]
      = some (.nat 2) ∧
    lookupPath (reportRV tblC3a tblC3a "id") ["counts", "df2_total_records"]
      = some (.nat 2) :=
  ⟨rfl,
    (claimC3_counts tblC3a tblC3a "id" (reportRV tblC3a tblC3a "id")
      (recordDiffsList tblC3a tblC3a "id") rfl).1,
    (claimC3_counts tblC3a tblC3a "id" (reportRV tblC3a tblC3a "id")
      (recordDiffsList tblC3a tblC3a "id") rfl).2⟩

/-- The full report at the C3 counterexample input, written out. -/
def rptC3 : RVal := .dict
  [("counts", .dict
      [("df1_total_records", .nat 2), ("df2_total_records", .nat 2),
       ("df1_unique_ids", .nat 2), ("df2_unique_ids", .nat 2)]),
   ("columns", .dict
      [("only_in_df1", .list []), ("only_in_df2", .list []),
       ("value_differences", .dict [])]),
   ("record_differences", .list [])]

/-- C3 counterexample: at two equal-length tables (so the claimed field
would hold the boolean true) the full produced report is `rptC3`, which
contains no boolean value at all — in particular no `countsMatch` field
equal to `len(df1) == len(df2)`. -/
theorem claimC3_counterexample :
    compare_dataframes tblC3a tblC3a "id" = .ok (rptC3, []) ∧
    containsBool rptC3 = false ∧
    (tblC3a.rows.length == tblC3a.rows.length) = true :=
  ⟨rfl, by simp [containsBool.eq_def, rptC3], rfl⟩

/-! ### Claim C4 -/

/-- C4 (amended): both comparison loops run over all common columns, the id
column included.  The value-set comparison covers the id column — a
`value_differences` entry for a column exists exactly when it is common and
its two string-cast value sets differ, so the id column can contribute one
(see the counterexample).  The field-level comparison also covers the id
column: a record difference for the id column arises exactly when the two
representative rows carry Python-equal id values whose canonical strings
nevertheless differ (cross-type ids such as True versus 1); the two stored
renderings then differ and the two underlying typed id cells are
distinct. -/
theorem claimC4_id_column (df1 df2 : DataFrame) (c : String) (r : RVal)
    (rds : List RecordDiff)
    (h : compare_dataframes df1 df2 c = .ok (r, rds)) :
    (∀ e ∈ rds, e.column = c →
      maskEq (getCell (reprRow df1 c e.recordId) c) e.recordId = true ∧
      maskEq (getCell (reprRow df2 c e.recordId) c) e.recordId = true ∧
      getCell (reprRow df1 c e.recordId) c ≠ getCell (reprRow df2 c e.recordId) c ∧
      e.df1Value ≠ e.df2Value) ∧
    ((List.lookup c (value_differences df1 df2)).isSome = true ↔
      (c ∈ commonColumns df1 df2 ∧
        setEqBy pyEq (valueSet df1 c) (valueSet df2 c) = false)) := by
  obtain ⟨h1, h2, hn, hp⟩ := compare_ok_inv df1 df2 c (r, rds) h
  obtain ⟨-, hrds⟩ : r = reportRV df1 df2 c ∧ rds = recordDiffsList df1 df2 c := by
    simpa using hp
  subst hrds
  refine ⟨?_, lookup_value_differences df1 df2 c⟩
  intro e he hec
  obtain ⟨hid, -, hne, hv1, hv2⟩ := (mem_recordDiffsList df1 df2 c e).mp he
  have hidn : e.recordId ≠ .noneV := by
    rintro hx
    rw [hx] at hid
    exact hn ((noneV_mem_common_ids df1 df2 c).mp hid)
  have hm1 := (ilocFirst_eq_ok df1 c e.recordId
    (exists_mask_row_left df1 df2 c e.recordId hid hidn)).2
  have hm2 := (ilocFirst_eq_ok df2 c e.recordId
    (exists_mask_row_right df1 df2 c e.recordId hid hidn)).2
  subst hec
  refine ⟨hm1, hm2, ?_, ?_⟩
  · intro hx
    rw [hx] at hne
    exact hne rfl
  · rw [hv1, hv2]
    exact hne

def tblC4a : DataFrame := ⟨["id"], [[("id", .intV 1)], [("id", .intV 3)]]⟩

def tblC4b : DataFrame := ⟨["id"], [[("id", .intV 1)], [("id", .intV 4)]]⟩

/-- C4 counterexample: with ids {1,3} versus {1,4} the id column itself
receives a `value_differences` entry in the produced report, refuting the
claim that the id column never contributes a ValueSetDiff. -/
theorem claimC4_counterexample :
    compare_dataframes tblC4a tblC4b "id"
      = .ok (reportRV tblC4a tblC4b "id", []) ∧
    (lookupPath (reportRV tblC4a tblC4b "id")
      ["columns", "value_differences", "id"]).isSome = true :=
  ⟨rfl, rfl⟩

def tblC4c : DataFrame := ⟨["id"], [[("id", .boolV true)]]⟩

def tblC4d : DataFrame := ⟨["id"], [[("id", .intV 1)]]⟩

/-- C4 witness: ids True versus 1 are Python-equal, so the id is matched,
yet the renderings "True" and "1" differ and the program emits a record
difference for the id column itself — the amended characterisation applies
to it. -/
theorem claimC4_id_column_witness :
    compare_dataframes tblC4c tblC4d "id"
      = .ok (reportRV tblC4c tblC4d "id",
          [RecordDiff.mk (.boolV true) "id" "True" "1"]) ∧
    ((∀ e ∈ [RecordDiff.mk (.boolV true) "id" "True" "1"], e.column = "id" →
      maskEq (getCell (reprRow tblC4c "id" e.recordId) "id") e.recordId = true ∧
      maskEq (getCell (reprRow tblC4d "id" e.recordId) "id") e.recordId = true ∧
      getCell (reprRow tblC4c "id" e.recordId) "id"
        ≠ getCell (reprRow tblC4d "id" e.recordId) "id" ∧
      e.df1Value ≠ e.df2Value) ∧
    ((List.lookup "id" (value_differences tblC4c tblC4d)).isSome = true ↔
      ("id" ∈ commonColumns tblC4c tblC4d ∧
        setEqBy pyEq (valueSet tblC4c "id") (valueSet tblC4d "id") = false))) :=
  ⟨rfl, claimC4_id_column tblC4c tblC4d "id" (reportRV tblC4c tblC4d "id")
    [RecordDiff.mk (.boolV true) "id" "True" "1"] rfl⟩

/-! ### Claim C5 -/

def tblC5a : DataFrame :=
  ⟨["id", "x"], [[("id", .intV 1), ("x", .strV "a")], [("id", .intV 2), ("x", .nanV)]]⟩

def tblC5b : DataFrame := ⟨["id", "x"], [[("id", .intV 1), ("x", .strV "a")]]⟩

/-- C5: the claim (nulls are excluded from the value sets) is the spec's and
the code's evident intent — the code calls `.dropna()` for exactly this —
but the call sits after `.astype(str)`, which has already turned the null
into the string "nan", so it removes nothing.  At the failing input (a null
in column x of the old table only) the produced report lists "nan" under
`only_in_df1` of column x. -/
theorem claimC5_null_reaches_report :
    compare_dataframes tblC5a tblC5b "id"
      = .ok (reportRV tblC5a tblC5b "id", recordDiffsList tblC5a tblC5b "id") ∧
    lookupPath (reportRV tblC5a tblC5b "id")
      ["columns", "value_differences", "x", "only_in_df1"]
      = some (.list [.pd (.strV "nan")]) :=
  ⟨rfl, rfl⟩

/-! ### Claim C6 -/

/-- C6 (amended): every emitted record difference stores the canonical
string renderings `str(oldValue)` and `str(newValue)` of the two
representative rows' cells — not the original typed values (see the
counterexample) — and the two stored strings differ. -/
theorem claimC6_strings_stored (df1 df2 : DataFrame) (c : String) (r : RVal)
    (rds : List RecordDiff)
    (h : compare_dataframes df1 df2 c = .ok (r, rds)) :
    ∀ e ∈ rds,
      e.df1Value = pdStr (getCell (reprRow df1 c e.recordId) e.column) ∧
      e.df2Value = pdStr (getCell (reprRow df2 c e.recordId) e.column) ∧
      e.df1Value ≠ e.df2Value := by
  obtain ⟨h1, h2, hn, hp⟩ := compare_ok_inv df1 df2 c (r, rds) h
  obtain ⟨-, hrds⟩ : r = reportRV df1 df2 c ∧ rds = recordDiffsList df1 df2 c := by
    simpa using hp
  subst hrds
  intro e he
  obtain ⟨-, -, hne, hv1, hv2⟩ := (mem_recordDiffsList df1 df2 c e).mp he
  refine ⟨hv1, hv2, ?_⟩
  rw [hv1, hv2]
  exact hne

def tblC6a : DataFrame := ⟨["id", "age"], [[("id", .intV 2), ("age", .intV 25)]]⟩

def tblC6b : DataFrame := ⟨["id", "age"], [[("id", .intV 2), ("age", .intV 26)]]⟩

/-- C6 witness: at the concrete mismatching tables, the single record
difference stores the two string renderings and they differ. -/
theorem claimC6_strings_stored_witness :
    compare_dataframes tblC6a tblC6b "id"
      = .ok (reportRV tblC6a tblC6b "id", recordDiffsList tblC6a tblC6b "id") ∧
    (∀ e ∈ recordDiffsList tblC6a tblC6b "id",
      e.df1Value = pdStr (getCell (reprRow tblC6a "id" e.recordId) e.column) ∧
      e.df2Value = pdStr (getCell (reprRow tblC6b "id" e.recordId) e.column) ∧
      e.df1Value ≠ e.df2Value) :=
  ⟨rfl, claimC6_strings_stored tblC6a tblC6b "id" (reportRV tblC6a tblC6b "id")
    (recordDiffsList tblC6a tblC6b "id") rfl⟩

/-- C6 counterexample: the original typed old value is the integer 25, but
the emitted entry (both in the typed record list and in the report tree)
holds the string "25" — the tagged original value is not preserved. -/
theorem claimC6_counterexample :
    compare_dataframes tblC6a tblC6b "id"
      = .ok (reportRV tblC6a tblC6b "id", [⟨.intV 2, "age", "25", "26"⟩]) ∧
    getCell (reprRow tblC6a "id" (.intV 2)) "age" = .intV 25 ∧
    lookupPath (reportRV tblC6a tblC6b "id") ["record_differences"]
      = some (.list [rvalOfRecordDiff ⟨.intV 2, "age", "25", "26"⟩]) ∧
    lookupD (rvalOfRecordDiff ⟨.intV 2, "age", "25", "26"⟩) "DF1 Value"
      = some (.pd (.strV "25")) ∧
    (RVal.pd (.strV "25") ≠ RVal.pd (.intV 25)) :=
  ⟨rfl, rfl, rfl, rfl, by simp⟩

/-! ### Claim C7 -/

theorem recordDiffs_swap (df1 df2 : DataFrame) (c : String)
    (hn : ¬(PdValue.noneV ∈ getColD df1 c ∧ PdValue.noneV ∈ getColD df2 c)) :
    ∀ e ∈ recordDiffsList df2 df1 c,
      ∃ e2 ∈ recordDiffsList df1 df2 c, entryPyEq e2 (swapRecordDiff e) = true := by
  intro e he
  obtain ⟨hid, hcol, hne, h1, h2⟩ := (mem_recordDiffsList df2 df1 c e).mp he
  have hidnn : e.recordId ≠ .noneV := by
    rintro hv
    rw [hv] at hid
    obtain ⟨hc2, hc1⟩ := (noneV_mem_common_ids df2 df1 c).mp hid
    exact hn ⟨hc1, hc2⟩
  have hidnan : e.recordId ≠ .nanV := by
    rintro hv
    rw [hv] at hid
    exact common_ids_not_nan df2 df1 c hid
  have hclass : ∃ w ∈ common_ids df1 df2 c, pyEq w e.recordId = true := by
    apply (inClass_common_ids df1 df2 c e.recordId).mpr
    have hboth := (inClass_common_ids df2 df1 c e.recordId).mp
      ⟨e.recordId, hid, pyEq_refl e.recordId hidnan⟩
    exact ⟨hboth.2, hboth.1⟩
  obtain ⟨w, hw, hwid⟩ := hclass
  have hwnn : w ≠ .noneV := by
    rintro rfl
    exact hidnn ((pyEq_none_iff e.recordId).mp hwid)
  have hmask : maskEq w e.recordId = true := by
    rw [← pyEq_eq_maskEq w e.recordId hwnn]
    exact hwid
  have hr1 : reprRow df1 c w = reprRow df1 c e.recordId :=
    reprRow_congr df1 c w e.recordId hmask
  have hr2 : reprRow df2 c w = reprRow df2 c e.recordId :=
    reprRow_congr df2 c w e.recordId hmask
  refine ⟨⟨w, e.column, e.df2Value, e.df1Value⟩, ?_, ?_⟩
  · apply (mem_recordDiffsList df1 df2 c _).mpr
    refine ⟨hw, (mem_commonColumns_symm df1 df2 e.column).mp hcol, ?_, ?_, ?_⟩
    · rw [hr1, hr2]
      intro hx
      exact hne hx.symm
    · rw [hr1]
      exact h2
    · rw [hr2]
      exact h1
  · simp [entryPyEq, swapRecordDiff, hwid]

/-- C7: symmetry of the diff.  The spec-level unmatched partitions (the
code itself computes none, see C2) swap their statuses when the arguments
swap, and the record-difference sets of diffing (A,B) and (B,A) coincide —
as Python compares the emitted entries, i.e. record ids under Python
equality — up to swapping the stored old/new values. -/
theorem claimC7_symmetry (df1 df2 : DataFrame) (c : String) (ra rb : RVal)
    (rds rds2 : List RecordDiff)
    (hAB : compare_dataframes df1 df2 c = .ok (ra, rds))
    (hBA : compare_dataframes df2 df1 c = .ok (rb, rds2)) :
    (∀ v : PdValue,
      ((v, MatchStatus.MissingInNew) ∈ specUnmatchedRecords df1 df2 c ↔
        (v, MatchStatus.MissingInOld) ∈ specUnmatchedRecords df2 df1 c) ∧
      ((v, MatchStatus.MissingInOld) ∈ specUnmatchedRecords df1 df2 c ↔
        (v, MatchStatus.MissingInNew) ∈ specUnmatchedRecords df2 df1 c)) ∧
    (∀ e ∈ rds2, ∃ e2 ∈ rds, entryPyEq e2 (swapRecordDiff e) = true) ∧
    (∀ e ∈ rds, ∃ e2 ∈ rds2, entryPyEq e2 (swapRecordDiff e) = true) := by
  obtain ⟨-, -, hnA, hpA⟩ := compare_ok_inv df1 df2 c (ra, rds) hAB
  obtain ⟨-, -, -, hpB⟩ := compare_ok_inv df2 df1 c (rb, rds2) hBA
  obtain ⟨-, hrdsA⟩ : ra = reportRV df1 df2 c ∧ rds = recordDiffsList df1 df2 c := by
    simpa using hpA
  obtain ⟨-, hrdsB⟩ : rb = reportRV df2 df1 c ∧ rds2 = recordDiffsList df2 df1 c := by
    simpa using hpB
  subst hrdsA
  subst hrdsB
  have hnB : ¬(PdValue.noneV ∈ getColD df2 c ∧ PdValue.noneV ∈ getColD df1 c) := by
    rintro ⟨ha, hb⟩
    exact hnA ⟨hb, ha⟩
  refine ⟨?_, recordDiffs_swap df1 df2 c hnA, recordDiffs_swap df2 df1 c hnB⟩
  intro v
  constructor
  · rw [mem_specUnmatched, mem_specUnmatched]
    simp
  · rw [mem_specUnmatched, mem_specUnmatched]
    simp

def tblC7a : DataFrame :=
  ⟨["id", "v"], [[("id", .intV 1), ("v", .strV "a")], [("id", .intV 3), ("v", .strV "c")]]⟩

def tblC7b : DataFrame :=
  ⟨["id", "v"], [[("id", .intV 1), ("v", .strV "b")], [("id", .intV 4), ("v", .strV "d")]]⟩

/-- C7 witness: concrete tables with one matched id (whose value differs)
and one unmatched id on each side. -/
theorem claimC7_symmetry_witness :
    compare_dataframes tblC7a tblC7b "id"
      = .ok (reportRV tblC7a tblC7b "id", recordDiffsList tblC7a tblC7b "id") ∧
    compare_dataframes tblC7b tblC7a "id"
      = .ok (reportRV tblC7b tblC7a "id", recordDiffsList tblC7b tblC7a "id") ∧
    ((∀ v : PdValue,
      ((v, MatchStatus.MissingInNew) ∈ specUnmatchedRecords tblC7a tblC7b "id" ↔
        (v, MatchStatus.MissingInOld) ∈ specUnmatchedRecords tblC7b tblC7a "id") ∧
      ((v, MatchStatus.MissingInOld) ∈ specUnmatchedRecords tblC7a tblC7b "id" ↔
        (v, MatchStatus.MissingInNew) ∈ specUnmatchedRecords tblC7b tblC7a "id")) ∧
    (∀ e ∈ recordDiffsList tblC7b tblC7a "id",
      ∃ e2 ∈ recordDiffsList tblC7a tblC7b "id",
        entryPyEq e2 (swapRecordDiff e) = true) ∧
    (∀ e ∈ recordDiffsList tblC7a tblC7b "id",
      ∃ e2 ∈ recordDiffsList tblC7b tblC7a "id",
        entryPyEq e2 (swapRecordDiff e) = true)) :=
  ⟨rfl, rfl, claimC7_symmetry tblC7a tblC7b "id" (reportRV tblC7a tblC7b "id")
    (reportRV tblC7b tblC7a "id") (recordDiffsList tblC7a tblC7b "id")
    (recordDiffsList tblC7b tblC7a "id") rfl rfl⟩

/-! ### Claim C8 -/

theorem ilocFirst_first (df : DataFrame) (c : String) (idv : PdValue)
    (h : ∃ row ∈ df.rows, maskEq (getCell row c) idv = true) :
    ∃ i, ∃ hi : i < df.rows.length,
      ilocFirst df c idv = .ok (df.rows.get ⟨i, hi⟩) ∧
      maskEq (getCell (df.rows.get ⟨i, hi⟩) c) idv = true ∧
      ∀ row ∈ df.rows.take i, maskEq (getCell row c) idv = false := by
  obtain ⟨hok, hp⟩ := ilocFirst_eq_ok df c idv h
  have hfind : df.rows.find? (fun r => maskEq (getCell r c) idv)
      = some (reprRow df c idv) := by
    rw [reprRow]
    cases hx : df.rows.find? (fun r => maskEq (getCell r c) idv) with
    | some row => rfl
    | none =>
      rw [ilocFirst, hx] at hok
      exact absurd hok (by simp)
  obtain ⟨i, hi, hget, hpa, htake⟩ :=
    find?_eq_some_first (fun r => maskEq (getCell r c) idv) df.rows
      (reprRow df c idv) hfind
  refine ⟨i, hi, ?_, ?_, htake⟩
  · rw [hok, hget]
  · rw [hget]
    exact hpa

/-- C8 (amended): when the id column is present in both tables and the two
id columns do not both contain a `None` id, the comparison never raises —
duplicates included — and for every common id the representative row used
on each side is the first row the pandas mask selects in row order; the
record differences are computed from exactly these representatives (and,
the embedding being a pure function, repeated runs on the same input give
the same result).  A `None` id present in both tables raises instead: see
the counterexample. -/
theorem claimC8_duplicates (df1 df2 : DataFrame) (c : String)
    (h1 : df1.cols.contains c = true) (h2 : df2.cols.contains c = true)
    (hn : ¬(PdValue.noneV ∈ getColD df1 c ∧ PdValue.noneV ∈ getColD df2 c)) :
    compare_dataframes df1 df2 c
      = .ok (reportRV df1 df2 c, recordDiffsList df1 df2 c) ∧
    (∀ idv ∈ common_ids df1 df2 c,
      (∃ i, ∃ hi : i < df1.rows.length,
        ilocFirst df1 c idv = .ok (df1.rows.get ⟨i, hi⟩) ∧
        maskEq (getCell (df1.rows.get ⟨i, hi⟩) c) idv = true ∧
        ∀ row ∈ df1.rows.take i, maskEq (getCell row c) idv = false) ∧
      (∃ i, ∃ hi : i < df2.rows.length,
        ilocFirst df2 c idv = .ok (df2.rows.get ⟨i, hi⟩) ∧
        maskEq (getCell (df2.rows.get ⟨i, hi⟩) c) idv = true ∧
        ∀ row ∈ df2.rows.take i, maskEq (getCell row c) idv = false)) ∧
    (∀ e ∈ recordDiffsList df1 df2 c,
      e.df1Value = pdStr (getCell (reprRow df1 c e.recordId) e.column) ∧
      e.df2Value = pdStr (getCell (reprRow df2 c e.recordId) e.column)) := by
  refine ⟨compare_ok df1 df2 c h1 h2 hn, ?_, ?_⟩
  · intro idv hidv
    obtain ⟨hrow1, hrow2⟩ := common_ids_rows df1 df2 c hn idv hidv
    exact ⟨ilocFirst_first df1 c idv hrow1, ilocFirst_first df2 c idv hrow2⟩
  · intro e he
    obtain ⟨-, -, -, hv1, hv2⟩ := (mem_recordDiffsList df1 df2 c e).mp he
    exact ⟨hv1, hv2⟩

def tblC8a : DataFrame :=
  ⟨["id", "v"], [[("id", .intV 1), ("v", .strV "a")], [("id", .intV 1), ("v", .strV "b")]]⟩

def tblC8b : DataFrame := ⟨["id", "v"], [[("id", .intV 1), ("v", .strV "b")]]⟩

/-- C8 witness: a concrete old table with the id 1 duplicated: the
comparison returns a report (it does not raise), and the representative of
id 1 is the first of its two rows. -/
theorem claimC8_duplicates_witness :
    (tblC8a.cols.contains "id" = true) ∧ (tblC8b.cols.contains "id" = true) ∧
    (¬(PdValue.noneV ∈ getColD tblC8a "id" ∧ PdValue.noneV ∈ getColD tblC8b "id")) ∧
    (compare_dataframes tblC8a tblC8b "id"
      = .ok (reportRV tblC8a tblC8b "id", recordDiffsList tblC8a tblC8b "id") ∧
    (∀ idv ∈ common_ids tblC8a tblC8b "id",
      (∃ i, ∃ hi : i < tblC8a.rows.length,
        ilocFirst tblC8a "id" idv = .ok (tblC8a.rows.get ⟨i, hi⟩) ∧
        maskEq (getCell (tblC8a.rows.get ⟨i, hi⟩) "id") idv = true ∧
        ∀ row ∈ tblC8a.rows.take i, maskEq (getCell row "id") idv = false) ∧
      (∃ i, ∃ hi : i < tblC8b.rows.length,
        ilocFirst tblC8b "id" idv = .ok (tblC8b.rows.get ⟨i, hi⟩) ∧
        maskEq (getCell (tblC8b.rows.get ⟨i, hi⟩) "id") idv = true ∧
        ∀ row ∈ tblC8b.rows.take i, maskEq (getCell row "id") idv = false)) ∧
    (∀ e ∈ recordDiffsList tblC8a tblC8b "id",
      e.df1Value = pdStr (getCell (reprRow tblC8a "id" e.recordId) e.column) ∧
      e.df2Value = pdStr (getCell (reprRow tblC8b "id" e.recordId) e.column))) :=
  ⟨rfl, rfl, by decide, claimC8_duplicates tblC8a tblC8b "id" rfl rfl (by decide)⟩

def tblC8n1 : DataFrame :=
  ⟨["id"], [[("id", .strV "x")], [("id", .noneV)], [("id", .noneV)]]⟩

def tblC8n2 : DataFrame := ⟨["id"], [[("id", .noneV)], [("id", .strV "y")]]⟩

/-- C8 counterexample: a table whose id column holds duplicate values (the
`None` id twice) on which the comparison raises: the `None` id reaches
`common_ids` through Python set identity, but the pandas mask `df[c] ==
None` selects no row, so `.iloc[0]` raises `IndexError` — refuting "never
raises". -/
theorem claimC8_counterexample :
    getColD tblC8n1 "id" = [.strV "x", .noneV, .noneV] ∧
    tblC8n1.cols.contains "id" = true ∧ tblC8n2.cols.contains "id" = true ∧
    compare_dataframes tblC8n1 tblC8n2 "id" = .error .indexError :=
  ⟨rfl, rfl, rfl, rfl⟩

/-! ### Claim C9 -/

/-- C9: whenever the comparison produces a report, a column present only in
the new table is listed under the report's `only_in_df2` and never yields a
record difference (the field loop runs over the common columns only). -/
theorem claimC9_new_column (df1 df2 : DataFrame) (c col : String) (r : RVal)
    (rds : List RecordDiff)
    (h : compare_dataframes df1 df2 c = .ok (r, rds))
    (hc2 : col ∈ df2.cols) (hc1 : col ∉ df1.cols) :
    lookupPath r ["columns", "only_in_df2"]
      = some (rlistStr (columnsOnlyInDf1 df2 df1)) ∧
    col ∈ columnsOnlyInDf1 df2 df1 ∧
    (∀ e ∈ rds, e.column ≠ col) := by
  obtain ⟨h1, h2, hn, hp⟩ := compare_ok_inv df1 df2 c (r, rds) h
  obtain ⟨hr, hrds⟩ : r = reportRV df1 df2 c ∧ rds = recordDiffsList df1 df2 c := by
    simpa using hp
  subst hr
  subst hrds
  refine ⟨rfl, (mem_columnsOnlyInDf1 df2 df1 col).mpr ⟨hc2, hc1⟩, ?_⟩
  intro e he hec
  obtain ⟨-, hcol, -, -, -⟩ := (mem_recordDiffsList df1 df2 c e).mp he
  obtain ⟨hm1, -⟩ := (mem_commonColumns df1 df2 e.column).mp hcol
  rw [hec] at hm1
  exact hc1 hm1

def tblC9a : DataFrame := ⟨["id"], [[("id", .intV 1)]]⟩

def tblC9b : DataFrame :=
  ⟨["id", "extra"], [[("id", .intV 1), ("extra", .strV "e")]]⟩

/-- C9 witness: the column "extra" exists only in the new table; it is
reported under `only_in_df2` and appears in no record difference. -/
theorem claimC9_new_column_witness :
    compare_dataframes tblC9a tblC9b "id"
      = .ok (reportRV tblC9a tblC9b "id", recordDiffsList tblC9a tblC9b "id") ∧
    ("extra" ∈ tblC9b.cols) ∧ ("extra" ∉ tblC9a.cols) ∧
    (lookupPath (reportRV tblC9a tblC9b "id") ["columns", "only_in_df2"]
      = some (rlistStr (columnsOnlyInDf1 tblC9b tblC9a)) ∧
    "extra" ∈ columnsOnlyInDf1 tblC9b tblC9a ∧
    (∀ e ∈ recordDiffsList tblC9a tblC9b "id", e.column ≠ "extra")) :=
  ⟨rfl, by decide, by decide,
    claimC9_new_column tblC9a tblC9b "id" "extra" (reportRV tblC9a tblC9b "id")
      (recordDiffsList tblC9a tblC9b "id") rfl (by decide) (by decide)⟩

/-! ### Claim C10 -/

/-- C10: `safe_sort` is a total function on value lists (the embedding
returns without raising on every input); its output is a permutation of its
input and is sorted ascending by the string key.  Every embedded value has
a well-defined string key, so the exception fallback of the source (return
the input unsorted) is dead code here. -/
theorem claimC10_safe_sort (l : List PdValue) :
    (safe_sort l).Perm l ∧ List.Sorted strKeyLe (safe_sort l) :=
  ⟨List.perm_insertionSort strKeyLe l, List.sorted_insertionSort strKeyLe l⟩
